import Mathlib

/-!
Shallow embedding of the keyboard state controller of this repository
(src/keyboard/KeyboardController.ts, src/utils/platform helpers, and
src/keyboard/hooks/useKeyboardAnimation.ts), together with proofs of the
spec's claims about it.

Numbers: pixel heights are modelled as `Int` (JS numbers used integrally by
the code under study; `Math.max(0, ...)` becomes `max 0 (...)`), and the
animation arithmetic as `ℚ` (exact rational arithmetic standing for the
float formulas, which the spec compares "within floating tolerance").
-/

/-- Platform classification, from `detectPlatform` (platform util / controller). -/
inductive Platform where
  | ios
  | android
  | web
deriving DecidableEq, Repr

/-- Transition phase of a keyboard state: the `type` field of `KeyboardState`
(`'opening' | 'closing' | 'stable'`). -/
inductive Phase where
  | opening
  | closing
  | stable
deriving DecidableEq, Repr

/-- `KeyboardState` from `types.ts` / `KeyboardController.ts`.
`target` is the opaque focused-element hash (`0` if none). -/
structure KeyboardState where
  isVisible : Bool
  height : Int
  duration : Nat
  timestamp : Nat
  target : Nat
  type : Phase
  platform : Platform
deriving DecidableEq, Repr

/-- `SafeAreaInsets` from `types.ts`: the four parsed
`--safe-area-inset-*` custom properties. -/
structure SafeAreaInsets where
  top : Int
  right : Int
  bottom : Int
  left : Int
deriving DecidableEq, Repr

/-- Composite `KeyboardControllerState`: what `getState()` returns. -/
structure ControllerState where
  keyboard : KeyboardState
  safeArea : SafeAreaInsets
  availableHeight : Int
deriving DecidableEq, Repr

/-- The instantaneous environment read by one recompute: the raw browser
signals `calculateKeyboardState` / `getSafeAreaInsets` /
`calculateAvailableHeight` consult.
* `hasVirtualKeyboard` — `'virtualKeyboard' in navigator`;
* `keyboardInsetHeight` — `parseInt(--keyboard-inset-height || '0')`;
* `visualViewport` — `window.visualViewport?.height` (`none` when the API is absent);
* `windowInnerHeight` — `window.innerHeight`;
* `isInputFocused` — `isInputElement(document.activeElement)`;
* `activeElementId` — `getElementId(activeElement)` (`none` when no active element);
* `safeTop/Right/Bottom/Left` — the parsed `--safe-area-inset-*` values. -/
structure Env where
  hasVirtualKeyboard : Bool
  keyboardInsetHeight : Int
  visualViewport : Option Int
  windowInnerHeight : Int
  isInputFocused : Bool
  activeElementId : Option Nat
  safeTop : Int
  safeRight : Int
  safeBottom : Int
  safeLeft : Int
deriving DecidableEq, Repr

/-- `getSafeAreaInsets()`: reads the four `--safe-area-inset-*` variables. -/
def getSafeAreaInsets (env : Env) : SafeAreaInsets :=
  { top := env.safeTop
    right := env.safeRight
    bottom := env.safeBottom
    left := env.safeLeft }

/-- The platform-specific keyboard-height computation inside
`calculateKeyboardState` (lines 316–365 of the controller), branch by branch.
`initialViewportHeight` is the captured `this.initialViewportHeight`. -/
def computeKeyboardHeight (platform : Platform) (initialViewportHeight : Int)
    (env : Env) : Int :=
  match platform with
  | .android =>
    -- Android: prefer the VirtualKeyboard inset; if it is 0, fall back to
    -- the visual-viewport delta; without the API, viewport then window delta.
    if env.hasVirtualKeyboard then
      let kh := env.keyboardInsetHeight
      if kh = 0 then
        match env.visualViewport with
        | some vh => max 0 (initialViewportHeight - vh)
        | none => kh
      else kh
    else
      match env.visualViewport with
      | some vh => max 0 (initialViewportHeight - vh)
      | none => max 0 (initialViewportHeight - env.windowInnerHeight)
  | .ios =>
    -- iOS: visual-viewport delta, with the Safari under-reporting correction.
    (match env.visualViewport with
     | some visualHeight =>
       let kh := max 0 (initialViewportHeight - visualHeight)
       if env.isInputFocused && kh < 50 then
         let heightDiff := initialViewportHeight - env.windowInnerHeight
         if heightDiff > 50 then heightDiff else kh
       else kh
     | none => max 0 (initialViewportHeight - env.windowInnerHeight))
  | .web =>
    match env.visualViewport with
    | some vh => max 0 (initialViewportHeight - vh)
    | none => max 0 (initialViewportHeight - env.windowInnerHeight)

/-- `calculateKeyboardState()` (controller lines 305–376).
`cfgDuration` is `this.config.animation?.duration` (the `|| 250` default is
applied here exactly as in the source, with `0`/absent both falling back). -/
def calculateKeyboardState (platform : Platform) (initialViewportHeight : Int)
    (env : Env) (cfgDuration : Option Nat) (timestamp : Nat) : KeyboardState :=
  let keyboardHeight := computeKeyboardHeight platform initialViewportHeight env
  let isVisible :=
    match platform with
    | .android => decide (keyboardHeight > 100) && env.isInputFocused
    | .ios => decide (keyboardHeight > 50) && env.isInputFocused
    | .web => decide (keyboardHeight > 50) && env.isInputFocused
  { isVisible := isVisible
    height := keyboardHeight
    duration := match cfgDuration with
                | some d => if d = 0 then 250 else d
                | none => 250
    timestamp := timestamp
    target := env.activeElementId.getD 0
    type := .stable
    platform := platform }

/-- The per-platform visibility threshold the source hard-codes:
`> 100` on android, `> 50` on ios and web. -/
def threshold : Platform → Int
  | .ios => 50
  | .android => 100
  | .web => 50

/-- `calculateAvailableHeight(keyboardState)` (controller lines 378–382):
`(window.visualViewport?.height || window.innerHeight) − safeArea.top −
safeArea.bottom − (isVisible ? height : 0)`. Note the JS `||`: a present but
zero visual-viewport height falls back to `window.innerHeight`. -/
def calculateAvailableHeight (env : Env) (keyboardState : KeyboardState) : Int :=
  let safeArea := getSafeAreaInsets env
  let windowHeight :=
    match env.visualViewport with
    | some h => if h = 0 then env.windowInnerHeight else h
    | none => env.windowInnerHeight
  windowHeight - safeArea.top - safeArea.bottom -
    (if keyboardState.isVisible then keyboardState.height else 0)

/-- `statesEqual` (controller lines 465–471): equality over
`{isVisible, height, target}` only. -/
def statesEqual (state1 state2 : KeyboardState) : Bool :=
  state1.isVisible = state2.isVisible &&
  state1.height = state2.height &&
  state1.target = state2.target

/-- The four lifecycle event kinds. -/
inductive KeyboardEventType where
  | keyboardWillShow
  | keyboardDidShow
  | keyboardWillHide
  | keyboardDidHide
deriving DecidableEq, Repr

/-- One observable action of a recompute, in program order:
a synchronous `emitEvent` (whose payload is the snapshot `{...state}` copied
at emission time), the assignment of `this.currentState`, or a
`setTimeout(... , delay)` scheduling a completion event. -/
inductive CtrlAction where
  | emit (eventType : KeyboardEventType) (payload : KeyboardState)
  | commit (newCtrlState : ControllerState)
  | scheduleEmit (delayMs : Nat) (eventType : KeyboardEventType)
      (payload : KeyboardState)
deriving DecidableEq, Repr

/-- `updateKeyboardState()` (controller lines 265–303) as a step function:
from the current composite state and the environment read during the
recompute, produce the next composite state and the ordered list of
observable actions. An unchanged `{isVisible,height,target}` triple is
discarded (`(cur, [])`). The source emits `keyboardWillShow`/`WillHide`
*before* mutating `newState.type` and *before* assigning
`this.currentState`, so the emitted payload still carries `type := .stable`;
the scheduled `Did*` callback closes over the mutated `newState` and thus
carries the committed phase. -/
def updateKeyboardState (cur : ControllerState) (platform : Platform)
    (initialViewportHeight : Int) (env : Env) (cfgDuration : Option Nat)
    (timestamp : Nat) : ControllerState × List CtrlAction :=
  let previousState := cur.keyboard
  let newState := calculateKeyboardState platform initialViewportHeight env
    cfgDuration timestamp
  if statesEqual previousState newState then (cur, [])
  else
    let preActions : List CtrlAction :=
      if !previousState.isVisible && newState.isVisible then
        [CtrlAction.emit .keyboardWillShow newState]
      else if previousState.isVisible && !newState.isVisible then
        [CtrlAction.emit .keyboardWillHide newState]
      else []
    let newState2 :=
      if !previousState.isVisible && newState.isVisible then
        { newState with type := .opening }
      else if previousState.isVisible && !newState.isVisible then
        { newState with type := .closing }
      else { newState with type := .stable }
    let newCtrl : ControllerState :=
      { keyboard := newState2
        safeArea := getSafeAreaInsets env
        availableHeight := calculateAvailableHeight env newState2 }
    let postActions : List CtrlAction :=
      if newState2.type = .opening then
        [CtrlAction.scheduleEmit newState2.duration .keyboardDidShow newState2]
      else if newState2.type = .closing then
        [CtrlAction.scheduleEmit newState2.duration .keyboardDidHide newState2]
      else []
    (newCtrl, preActions ++ CtrlAction.commit newCtrl :: postActions)

/-- The constructor's initial composite state (controller lines 20–43):
hidden keyboard, `height = 0`, `type = 'stable'`,
`availableHeight = window.innerHeight`. -/
def initialControllerState (platform : Platform) (env : Env) (timestamp : Nat) :
    ControllerState :=
  { keyboard := { isVisible := false, height := 0, duration := 0,
                  timestamp := timestamp, target := 0, type := .stable,
                  platform := platform }
    safeArea := getSafeAreaInsets env
    availableHeight := env.windowInnerHeight }

/-- The fixed debounce delay of `scheduleStateUpdate` (`setTimeout(..., 100)`). -/
def debounceDelay : Nat := 100

/-- Timer semantics of `scheduleStateUpdate` (controller lines 255–263) over a
time-ordered list of trigger instants. The `Option Nat` is the fire time of
the currently scheduled debounce timer (the one whose id is in
`this.timeoutId`), if any. A trigger at time `t` first lets a pending timer
whose fire time has already passed fire (the recompute executed; the stale id
makes the `clearTimeout` a no-op), otherwise the `clearTimeout` cancels the
still-pending timer before it ever runs; either way a fresh timer is
scheduled at `t + delay`. The result is the list of recompute execution
times; a recompute reads the environment at its execution time, i.e. the
latest sample. -/
def runDebounce (delay : Nat) : Option Nat → List Nat → List Nat
  | none, [] => []
  | some fireAt, [] => [fireAt]
  | none, t :: ts => runDebounce delay (some (t + delay)) ts
  | some fireAt, t :: ts =>
    if fireAt ≤ t then fireAt :: runDebounce delay (some (t + delay)) ts
    else runDebounce delay (some (t + delay)) ts

/-- Is this action the synchronous emission of a `will*` lifecycle event? -/
def CtrlAction.isWillEmit : CtrlAction → Bool
  | .emit .keyboardWillShow _ => true
  | .emit .keyboardWillHide _ => true
  | _ => false

/-- A burst: starting from a trigger at `prev`, every later trigger arrives
strictly before the debounce timer scheduled by its predecessor (at
`predecessor + delay`) would fire. -/
def isBurst (delay : Nat) : Nat → List Nat → Bool
  | _, [] => true
  | prev, t :: ts => decide (t < prev + delay) && isBurst delay t ts

/-- The controller's cancellable resources plus the browser-side pending
timer queue, as mutated by `setupEventListeners`, `handleOrientationChange`,
`scheduleStateUpdate`, the timer callbacks, and `destroy()` (controller
lines 152–163). `pendingOrientation` counts live 500 ms orientation-recapture
`setTimeout` callbacks; the source discards their ids
(line 249: `setTimeout(() => {...}, 500)` with no assignment), so the class
keeps no handle with which `destroy()` could clear them. -/
structure CtrlResources where
  envListenersAttached : Bool
  debouncePending : Bool
  rafPending : Bool
  pendingOrientation : Nat
  destroyed : Bool
  recomputes : Nat
deriving DecidableEq, Repr

/-- The signals that drive the resource model: environment events delivered
while their listeners are attached, timer expirations, and `destroy()`. -/
inductive CtrlSignal where
  | orientationChange
  | envTrigger
  | orientationTimerFires
  | debounceTimerFires
  | destroyCall
deriving DecidableEq, Repr

/-- One step of the resource model.
* `orientationChange` — `handleOrientationChange` runs only while its
  listener is attached; it starts a 500 ms `setTimeout` whose id is dropped.
* `envTrigger` — focus/blur/viewport/resize/geometry handlers call
  `scheduleStateUpdate`, (re)arming the tracked debounce timer.
* `orientationTimerFires` — a live 500 ms callback elapses. The browser runs
  it regardless of `destroy()` having been called, because its id was never
  stored and hence never passed to `clearTimeout`; the callback re-captures
  `initialViewportHeight` and calls `scheduleStateUpdate`.
* `debounceTimerFires` — a live debounce timer elapses and
  `updateKeyboardState` executes (a recompute / state mutation).
* `destroyCall` — `destroy()`: `removeEventListeners()`,
  `removeAllListeners()`, `cancelAnimationFrame(this.rafId)`,
  `clearTimeout(this.timeoutId)`; `pendingOrientation` is untouched. -/
def stepCtrl (w : CtrlResources) (s : CtrlSignal) : CtrlResources :=
  match s with
  | .orientationChange =>
    if w.envListenersAttached then
      { w with pendingOrientation := w.pendingOrientation + 1 }
    else w
  | .envTrigger =>
    if w.envListenersAttached then { w with debouncePending := true } else w
  | .orientationTimerFires =>
    if w.pendingOrientation > 0 then
      { w with pendingOrientation := w.pendingOrientation - 1
               debouncePending := true }
    else w
  | .debounceTimerFires =>
    if w.debouncePending then
      { w with debouncePending := false, recomputes := w.recomputes + 1 }
    else w
  | .destroyCall =>
    { w with envListenersAttached := false
             debouncePending := false
             rafPending := false
             destroyed := true }

/-- Run the resource model over a signal sequence. -/
def runCtrl (w : CtrlResources) (sigs : List CtrlSignal) : CtrlResources :=
  sigs.foldl stepCtrl w

/-- Resources right after `initialize()`: listeners attached, no timers. -/
def initResources : CtrlResources :=
  { envListenersAttached := true, debouncePending := false,
    rafPending := false, pendingOrientation := 0, destroyed := false,
    recomputes := 0 }

/-- The `KeyboardEvent` payload delivered to listeners:
`{type, state: {...state}, timestamp}`. -/
structure KbDispatchEvent where
  type : KeyboardEventType
  state : KeyboardState
  timestamp : Nat

/-- What `emitEvent`'s per-listener `try`/`catch` records for one listener:
`none` — the listener returned normally; `some msg` — it threw, the
exception was caught and `console.error`-logged with message `msg`. -/
def listenerOutcome (listener : KbDispatchEvent → Except String Unit)
    (event : KbDispatchEvent) : Option String :=
  match listener event with
  | .ok _ => none
  | .error msg => some msg

/-- `emitEvent` (controller lines 426–442): every listener registered for the
event type is invoked with the event, each call wrapped in its own
`try`/`catch`; a throwing listener only contributes a log entry and the
iteration continues with the next listener. `this.currentState` is not
touched by the dispatch: the composite state is returned unchanged, paired
with the per-listener log. -/
def emitEvent (cur : ControllerState)
    (listeners : List (KbDispatchEvent → Except String Unit))
    (event : KbDispatchEvent) : ControllerState × List (Option String) :=
  (cur, listeners.map (fun listener => listenerOutcome listener event))

/-- `PlatformCapabilities` from the platform util. -/
structure PlatformCapabilities where
  supportsVisualViewport : Bool
  supportsVirtualKeyboard : Bool
  supportsInteractiveWidget : Bool
  supportsKeyboardEnvVariables : Bool
deriving DecidableEq, Repr

/-- `getPlatformCapabilities` (platform util lines 35–65).
`hasVisualViewport` is `'visualViewport' in window`, `hasVirtualKeyboard`
is `'virtualKeyboard' in navigator`; the function reads nothing else. -/
def getPlatformCapabilities (platform : Platform)
    (hasVisualViewport hasVirtualKeyboard : Bool) : PlatformCapabilities :=
  match platform with
  | .ios =>
    { supportsVisualViewport := hasVisualViewport
      supportsVirtualKeyboard := false
      supportsInteractiveWidget := false
      supportsKeyboardEnvVariables := false }
  | .android =>
    { supportsVisualViewport := hasVisualViewport
      supportsVirtualKeyboard := hasVirtualKeyboard
      supportsInteractiveWidget := true
      supportsKeyboardEnvVariables := hasVirtualKeyboard }
  | .web =>
    { supportsVisualViewport := hasVisualViewport
      supportsVirtualKeyboard := hasVirtualKeyboard
      supportsInteractiveWidget := true
      supportsKeyboardEnvVariables := hasVirtualKeyboard }

/-- `isChromeWithVirtualKeyboard` (platform util lines 70–78): the
`/Chrome\/(\d+)/` user-agent match is modelled as the parsed major version
(`none` when the user agent carries no Chrome token). -/
def isChromeWithVirtualKeyboard (chromeVersion : Option Nat) : Bool :=
  match chromeVersion with
  | none => false
  | some v => decide (v ≥ 108)

/-- The interpolated height of one tick of the `animate` loop in
`useKeyboardAnimation` (hook lines 56–73), as a function of the elapsed time
since the animation started: the raw time fraction is clamped above by 1
(`Math.min(elapsed / duration, 1)`), eased with the cubic ease-out
`1 − (1 − t)³`, and the height is `start + (target − start) · eased`. -/
def animTickHeight (startHeight targetHeight duration elapsed : ℚ) : ℚ :=
  let progress := min (elapsed / duration) 1
  let easedProgress := 1 - (1 - progress) ^ 3
  startHeight + (targetHeight - startHeight) * easedProgress

/-- The reported progress of the same tick: the interpolated height
normalized by the target height when the target is positive
(`animation.targetHeight > 0 ? currentHeight / targetHeight : ...`), else by
the previous height, clamped to `[0, 1]`
(`Math.max(0, Math.min(1, keyboardProgress))`). -/
def animTickProgress (startHeight targetHeight duration elapsed : ℚ) : ℚ :=
  let currentHeight := animTickHeight startHeight targetHeight duration elapsed
  let keyboardProgress :=
    if 0 < targetHeight then currentHeight / targetHeight
    else 1 - currentHeight / max startHeight 1
  max 0 (min 1 keyboardProgress)

/-- C1 scenario: iOS, initial viewport 800, visual viewport shrunk to
300 px with an editable element focused, safe-area insets top = bottom = 50. -/
def envC1 : Env :=
  { hasVirtualKeyboard := false, keyboardInsetHeight := 0,
    visualViewport := some 300, windowInnerHeight := 800,
    isInputFocused := true, activeElementId := some 1,
    safeTop := 50, safeRight := 0, safeBottom := 50, safeLeft := 0 }

/-- C2 scenario: iOS, hidden initial state, then a sample with visual
viewport 500 of an initial 800 (height 300) and an editable element focused. -/
def envC2 : Env :=
  { hasVirtualKeyboard := false, keyboardInsetHeight := 0,
    visualViewport := some 500, windowInnerHeight := 800,
    isInputFocused := true, activeElementId := some 7,
    safeTop := 0, safeRight := 0, safeBottom := 0, safeLeft := 0 }

/-- C2 starting state: the constructed (hidden) initial state on iOS. -/
def ctrlC2 : ControllerState := initialControllerState .ios envC2 0

/-- C4 scenario: keyboard already visible at height 300 (element hash 1). -/
def ctrlC4 : ControllerState :=
  { keyboard := { isVisible := true, height := 300, duration := 250,
                  timestamp := 0, target := 1, type := .stable,
                  platform := .ios }
    safeArea := { top := 0, right := 0, bottom := 0, left := 0 }
    availableHeight := 500 }

/-- C4 scenario: the next sample shrinks the keyboard to 260 px
(visual viewport 540 of an initial 800), same focused element. -/
def envC4 : Env :=
  { hasVirtualKeyboard := false, keyboardInsetHeight := 0,
    visualViewport := some 540, windowInnerHeight := 800,
    isInputFocused := true, activeElementId := some 1,
    safeTop := 0, safeRight := 0, safeBottom := 0, safeLeft := 0 }

/-- C5 sample: android without the VirtualKeyboard API, visual viewport 720
of an initial 800 (height 80), editable element focused. -/
def envC5a : Env :=
  { hasVirtualKeyboard := false, keyboardInsetHeight := 0,
    visualViewport := some 720, windowInnerHeight := 800,
    isInputFocused := true, activeElementId := some 1,
    safeTop := 0, safeRight := 0, safeBottom := 0, safeLeft := 0 }

/-- C5 sample: as `envC5a` but visual viewport 680 (height 120). -/
def envC5b : Env := { envC5a with visualViewport := some 680 }

/-- C5 sample: visual viewport 500 of an initial 800 (height 300) with no
editable element focused (address-bar collapse). -/
def envC5c : Env :=
  { envC5a with visualViewport := some 500, isInputFocused := false,
                activeElementId := none }

/-- C6 witness sample: visual viewport equal to the initial height. -/
def envC6 : Env :=
  { hasVirtualKeyboard := false, keyboardInsetHeight := 0,
    visualViewport := some 500, windowInnerHeight := 500,
    isInputFocused := true, activeElementId := some 1,
    safeTop := 0, safeRight := 0, safeBottom := 0, safeLeft := 0 }

/-- Every recomputed state's `isVisible` is the hard-coded per-platform
threshold test of its own `height`, conjoined with the focus flag. -/
lemma calc_isVisible_eq (platform : Platform) (initialViewportHeight : Int)
    (env : Env) (cfgDuration : Option Nat) (timestamp : Nat) :
    (calculateKeyboardState platform initialViewportHeight env cfgDuration
        timestamp).isVisible
      = (decide (threshold platform <
          (calculateKeyboardState platform initialViewportHeight env cfgDuration
            timestamp).height) && env.isInputFocused) := by
  cases platform <;> simp [calculateKeyboardState, threshold]

/-- **C5** (confirmed). For every recomputed keyboard state, `isVisible` holds
exactly when the computed `height` exceeds the platform threshold (50 on ios,
100 on android, 50 on web) and an editable element is focused; in particular
height 80 with focus on android is not visible, height 120 with focus on
android is visible, and height 300 without focus (ios) is not visible. -/
theorem C5_visibility_threshold (platform : Platform)
    (initialViewportHeight : Int) (env : Env) (cfgDuration : Option Nat)
    (timestamp : Nat) :
    ((calculateKeyboardState platform initialViewportHeight env cfgDuration
        timestamp).isVisible
      = (decide (threshold platform <
          (calculateKeyboardState platform initialViewportHeight env cfgDuration
            timestamp).height) && env.isInputFocused)) ∧
    ((calculateKeyboardState .android 800 envC5a none 0).height = 80 ∧
      (calculateKeyboardState .android 800 envC5a none 0).isVisible = false) ∧
    ((calculateKeyboardState .android 800 envC5b none 0).height = 120 ∧
      (calculateKeyboardState .android 800 envC5b none 0).isVisible = true) ∧
    ((calculateKeyboardState .ios 800 envC5c none 0).height = 300 ∧
      (calculateKeyboardState .ios 800 envC5c none 0).isVisible = false) :=
  ⟨calc_isVisible_eq platform initialViewportHeight env cfgDuration timestamp,
   by decide, by decide, by decide⟩

/-- **C6** (confirmed). After every recompute, on every platform and fallback
path, a keyboard state with `height = 0` has `isVisible = false`. -/
theorem C6_zero_height_invisible (platform : Platform)
    (initialViewportHeight : Int) (env : Env) (cfgDuration : Option Nat)
    (timestamp : Nat)
    (h0 : (calculateKeyboardState platform initialViewportHeight env cfgDuration
            timestamp).height = 0) :
    (calculateKeyboardState platform initialViewportHeight env cfgDuration
        timestamp).isVisible = false := by
  rw [calc_isVisible_eq, h0]
  cases platform <;> simp [threshold]

/-- C6 witness: a concrete recompute (web, viewport back at the initial
height while an input is focused) yields `height = 0` and is not visible. -/
theorem C6_zero_height_invisible_witness :
    (calculateKeyboardState .web 500 envC6 none 0).height = 0 ∧
    (calculateKeyboardState .web 500 envC6 none 0).isVisible = false :=
  ⟨by decide, C6_zero_height_invisible .web 500 envC6 none 0 (by decide)⟩

/-- **C1** (code bug). The spec requires
`availableHeight = viewportHeight − safeArea.top − safeArea.bottom −
(keyboard.isVisible ? keyboard.height : 0)` clamped at 0, but
`calculateAvailableHeight` never clamps: a recompute from the constructed
initial state, with the visual viewport at 300 px, insets 50/50 and a 500 px
keyboard, commits `availableHeight = −300 < 0`. -/
theorem C1_availableHeight_goes_negative :
    (updateKeyboardState (initialControllerState .ios envC1 0) .ios 800 envC1
        none 5).1.availableHeight = -300 ∧
    (updateKeyboardState (initialControllerState .ios envC1 0) .ios 800 envC1
        none 5).1.availableHeight < 0 := by
  decide

/-- **C2 counterexample.** In the hidden→visible transition (height 300,
focused, ios), the `keyboardWillShow` emission is the *first* action, the
composite-state commit only the *second*, and the emitted payload still
carries `phase = stable` — it is not the committed state, whose phase is
`opening`. This refutes the claim that the event carries the committed state
and that the composite `ControllerState` is updated before the emission. -/
theorem C2_willShow_payload_not_committed :
    (updateKeyboardState ctrlC2 .ios 800 envC2 none 1000).2 =
      [CtrlAction.emit .keyboardWillShow
        { isVisible := true, height := 300, duration := 250, timestamp := 1000,
          target := 7, type := .stable, platform := .ios },
       CtrlAction.commit
        { keyboard := { isVisible := true, height := 300, duration := 250,
                        timestamp := 1000, target := 7, type := .opening,
                        platform := .ios }
          safeArea := { top := 0, right := 0, bottom := 0, left := 0 }
          availableHeight := 200 },
       CtrlAction.scheduleEmit 250 .keyboardDidShow
        { isVisible := true, height := 300, duration := 250, timestamp := 1000,
          target := 7, type := .opening, platform := .ios }] ∧
    ({ isVisible := true, height := 300, duration := 250, timestamp := 1000,
       target := 7, type := .stable, platform := .ios } : KeyboardState) ≠
      (updateKeyboardState ctrlC2 .ios 800 envC2 none 1000).1.keyboard := by
  decide

/-- **C2** (corrected). From the hidden initial state, a sample yielding
height 300 with an editable element focused on ios commits
`{isVisible := true, height := 300, phase := opening}`; `keyboardWillShow`
fires synchronously during the same recompute, but *before* the composite
state is committed and with the pre-commit snapshot
`{isVisible := true, height := 300, phase := stable}`; `keyboardDidShow` is
scheduled to fire after the transition duration (250 ms) with the same
height 300 (and the committed phase `opening`). -/
theorem C2_transition_sequence :
    (updateKeyboardState ctrlC2 .ios 800 envC2 none 1000).1 =
      { keyboard := { isVisible := true, height := 300, duration := 250,
                      timestamp := 1000, target := 7, type := .opening,
                      platform := .ios }
        safeArea := { top := 0, right := 0, bottom := 0, left := 0 }
        availableHeight := 200 } ∧
    (updateKeyboardState ctrlC2 .ios 800 envC2 none 1000).2 =
      [CtrlAction.emit .keyboardWillShow
        { isVisible := true, height := 300, duration := 250, timestamp := 1000,
          target := 7, type := .stable, platform := .ios },
       CtrlAction.commit (updateKeyboardState ctrlC2 .ios 800 envC2 none 1000).1,
       CtrlAction.scheduleEmit 250 .keyboardDidShow
        (updateKeyboardState ctrlC2 .ios 800 envC2 none 1000).1.keyboard] := by
  decide

/-- **C4 counterexample.** With the keyboard already visible at height 300 and
the next sample shrinking it to 260 (same focus target), the recompute
*commits* (the action list is non-empty, the stored height changes) and the
committed phase is `stable` — a commit whose `height` changed still carries
`phase = stable`, refuting the claim that a changed
`{isVisible, height, focusedElementId}` triple never commits as `stable`. -/
theorem C4_stable_commit_with_changed_height :
    (updateKeyboardState ctrlC4 .ios 800 envC4 none 5).2 ≠ [] ∧
    (updateKeyboardState ctrlC4 .ios 800 envC4 none 5).1.keyboard.type =
      Phase.stable ∧
    (updateKeyboardState ctrlC4 .ios 800 envC4 none 5).1.keyboard.height = 260 ∧
    ctrlC4.keyboard.height = 300 := by
  decide

/-- **C4** (amended). A recompute whose new `{isVisible, height, target}`
triple equals the previous one commits nothing (state and action list are
unchanged); a recompute whose triple changed always commits, and the
committed phase is `stable` exactly when the *visibility flag* is unchanged —
so `stable` commits are precisely the height-only / focus-target-only
changes, not the unchanged-sample case (which never commits at all). -/
theorem C4_stable_phase_characterization (cur : ControllerState)
    (platform : Platform) (initialViewportHeight : Int) (env : Env)
    (cfgDuration : Option Nat) (timestamp : Nat) (newState : KeyboardState)
    (hnew : newState = calculateKeyboardState platform initialViewportHeight env
        cfgDuration timestamp) :
    (statesEqual cur.keyboard newState = true →
      updateKeyboardState cur platform initialViewportHeight env cfgDuration
        timestamp = (cur, [])) ∧
    (statesEqual cur.keyboard newState = false →
      ((updateKeyboardState cur platform initialViewportHeight env cfgDuration
          timestamp).1.keyboard.type = Phase.stable ↔
        cur.keyboard.isVisible = newState.isVisible)) := by
  subst hnew
  constructor
  · intro h
    simp [updateKeyboardState, h]
  · intro h
    cases hv1 : cur.keyboard.isVisible <;>
      cases hv2 : (calculateKeyboardState platform initialViewportHeight env
        cfgDuration timestamp).isVisible <;>
      simp [updateKeyboardState, h, hv1, hv2]

/-- C4 witness: in the concrete 300 → 260 shrink, the triple changed, both
states are visible, and the committed phase is indeed `stable`. -/
theorem C4_stable_phase_characterization_witness :
    statesEqual ctrlC4.keyboard
      (calculateKeyboardState .ios 800 envC4 none 5) = false ∧
    ((updateKeyboardState ctrlC4 .ios 800 envC4 none 5).1.keyboard.type =
        Phase.stable ↔
      ctrlC4.keyboard.isVisible =
        (calculateKeyboardState .ios 800 envC4 none 5).isVisible) :=
  ⟨by decide,
   (C4_stable_phase_characterization ctrlC4 .ios 800 envC4 none 5 _ rfl).2
     (by decide)⟩

/-- **C3** (code bug). `destroy()` does detach the environment listeners,
clear the tracked debounce timer and cancel the animation frame — the third
conjunct shows a debounce armed before `destroy()` never recomputes — but
`handleOrientationChange` discards the id of its 500 ms recapture
`setTimeout`, so `destroy()` has no handle to clear it: in the trace
orientation-change → `destroy()` → 500 ms timer fires → debounce fires, a
recompute (state mutation) executes *after* teardown. -/
theorem C3_orientation_timer_survives_destroy :
    (runCtrl initResources [.orientationChange, .destroyCall,
        .orientationTimerFires, .debounceTimerFires]).destroyed = true ∧
    (runCtrl initResources [.orientationChange, .destroyCall,
        .orientationTimerFires, .debounceTimerFires]).recomputes = 1 ∧
    (runCtrl initResources [.envTrigger, .destroyCall,
        .debounceTimerFires]).recomputes = 0 := by
  decide

/-- Under a burst — each trigger arriving before the previously scheduled
debounce timer fires — the pending timer is always cancelled and rescheduled,
so the whole burst collapses to the single recompute at `last + delay`. -/
lemma runDebounce_chain (delay : Nat) (prev : Nat) (ts : List Nat)
    (h : isBurst delay prev ts = true) :
    runDebounce delay (some (prev + delay)) ts = [ts.getLastD prev + delay] := by
  induction ts generalizing prev with
  | nil => rfl
  | cons t ts ih =>
    rw [isBurst, Bool.and_eq_true, decide_eq_true_eq] at h
    rw [List.getLastD_cons]
    simp only [runDebounce, if_neg (by omega : ¬ prev + delay ≤ t)]
    exact ih t h.2

/-- Any single recompute emits at most one `will*` event. -/
lemma willEmit_count_le_one (cur : ControllerState) (platform : Platform)
    (initialViewportHeight : Int) (env : Env) (cfgDuration : Option Nat)
    (timestamp : Nat) :
    (((updateKeyboardState cur platform initialViewportHeight env cfgDuration
        timestamp).2).filter CtrlAction.isWillEmit).length ≤ 1 := by
  by_cases h : statesEqual cur.keyboard (calculateKeyboardState platform
    initialViewportHeight env cfgDuration timestamp) = true
  · simp [updateKeyboardState, h]
  · cases hv1 : cur.keyboard.isVisible <;>
      cases hv2 : (calculateKeyboardState platform initialViewportHeight env
        cfgDuration timestamp).isVisible <;>
      simp [updateKeyboardState, h, hv1, hv2, CtrlAction.isWillEmit]

/-- **C7** (confirmed). A burst of `N ≥ 1` triggers in which every trigger
arrives within the 100 ms debounce window of its predecessor yields exactly
one recompute, executing at `last trigger + 100` (so it reads the latest
sample); the earlier scheduled timers are cancelled by `clearTimeout` before
running, never run-then-discarded (the model records every executed
recompute, and only one is recorded). Moreover any one recompute emits at
most one `will*` event, so the burst produces at most one `will*` pair. -/
theorem C7_debounce_collapse (t : Nat) (ts : List Nat)
    (hburst : isBurst debounceDelay t ts = true) :
    runDebounce debounceDelay none (t :: ts) =
      [ts.getLastD t + debounceDelay] ∧
    ∀ (cur : ControllerState) (platform : Platform)
      (initialViewportHeight : Int) (env : Env) (cfgDuration : Option Nat)
      (timestamp : Nat),
      (((updateKeyboardState cur platform initialViewportHeight env cfgDuration
          timestamp).2).filter CtrlAction.isWillEmit).length ≤ 1 := by
  constructor
  · simp only [runDebounce]
    exact runDebounce_chain debounceDelay t ts hburst
  · intro cur platform initialViewportHeight env cfgDuration timestamp
    exact willEmit_count_le_one cur platform initialViewportHeight env
      cfgDuration timestamp

/-- C7 witness: the burst 0, 30, 60 (every gap < 100 ms) collapses to the
single recompute at 160 ms. -/
theorem C7_debounce_collapse_witness :
    isBurst debounceDelay 0 [30, 60] = true ∧
    runDebounce debounceDelay none [0, 30, 60] =
      [List.getLastD [30, 60] 0 + debounceDelay] :=
  ⟨by decide, (C7_debounce_collapse 0 [30, 60] (by decide)).1⟩

/-- **C8** (confirmed). Dispatching an event runs every registered listener:
the log has one entry per listener, the entry for listener `i` is determined
by listener `i` alone (a throwing listener is caught and contributes its
logged message, a normal one contributes `none` — so earlier failures never
prevent later listeners from receiving the event, and no exception escapes
the dispatch), and the controller's composite state is returned unchanged. -/
theorem C8_listener_failure_isolated (cur : ControllerState)
    (listeners : List (KbDispatchEvent → Except String Unit))
    (event : KbDispatchEvent) :
    (emitEvent cur listeners event).1 = cur ∧
    (emitEvent cur listeners event).2.length = listeners.length ∧
    ∀ i : Nat, (emitEvent cur listeners event).2[i]? =
      (listeners[i]?).map (fun listener => listenerOutcome listener event) := by
  refine ⟨rfl, by simp [emitEvent], fun i => ?_⟩
  simp [emitEvent, List.getElem?_map]

/-- **C9 counterexample.** `getPlatformCapabilities` never consults the
engine version: with Chrome 120 (engine ≥ 108 per
`isChromeWithVirtualKeyboard`) but no `virtualKeyboard` object in the
navigator, android is *not* granted the native-keyboard capability; with
Chrome 90 (engine < 108) android is still granted interactive-resize; and
web with neither API present is *not* granted all three ("assume all"
fails). Each conjunct contradicts one leg of the claim. -/
theorem C9_capabilities_ignore_engine_version :
    (isChromeWithVirtualKeyboard (some 120) = true ∧
      (getPlatformCapabilities .android true false).supportsVirtualKeyboard
        = false) ∧
    (isChromeWithVirtualKeyboard (some 90) = false ∧
      (getPlatformCapabilities .android true true).supportsInteractiveWidget
        = true) ∧
    ((getPlatformCapabilities .web false false).supportsVisualViewport = false ∧
      (getPlatformCapabilities .web false false).supportsVirtualKeyboard
        = false) := by
  decide

/-- **C9** (amended). The capabilities lookup is a function of only the two
presence flags (`'visualViewport' in window`, `'virtualKeyboard' in
navigator`): ios gets at most viewport-resize (every other flag false);
android and web both get viewport-resize iff the visual-viewport API is
present, the native keyboard API and keyboard env-variables iff the
VirtualKeyboard API is present, and interactive-resize unconditionally. The
engine-version ≥ 108 test lives only in the separate predicate
`isChromeWithVirtualKeyboard`, which the lookup does not call. -/
theorem C9_capabilities_table (hasVisualViewport hasVirtualKeyboard : Bool) :
    (getPlatformCapabilities .ios hasVisualViewport hasVirtualKeyboard =
      { supportsVisualViewport := hasVisualViewport
        supportsVirtualKeyboard := false
        supportsInteractiveWidget := false
        supportsKeyboardEnvVariables := false }) ∧
    (getPlatformCapabilities .android hasVisualViewport hasVirtualKeyboard =
      { supportsVisualViewport := hasVisualViewport
        supportsVirtualKeyboard := hasVirtualKeyboard
        supportsInteractiveWidget := true
        supportsKeyboardEnvVariables := hasVirtualKeyboard }) ∧
    (getPlatformCapabilities .web hasVisualViewport hasVirtualKeyboard =
      { supportsVisualViewport := hasVisualViewport
        supportsVirtualKeyboard := hasVirtualKeyboard
        supportsInteractiveWidget := true
        supportsKeyboardEnvVariables := hasVirtualKeyboard }) ∧
    (∀ v : Nat, isChromeWithVirtualKeyboard (some v) = decide (108 ≤ v)) ∧
    isChromeWithVirtualKeyboard none = false := by
  refine ⟨rfl, rfl, rfl, fun v => rfl, rfl⟩

/-- For a show animation from height 0 to a positive target, the reported
progress of a tick at elapsed time `e ≥ 0` is exactly the ease-out curve
`1 − (1 − t)³` with `t = min (e / 250) 1`: the `[0, 1]` clamp of
`animTickProgress` is the identity there. -/
lemma animTickProgress_from_zero (e : ℚ) (he : 0 ≤ e) :
    animTickProgress 0 300 250 e = 1 - (1 - min (e / 250) 1) ^ 3 := by
  have ht0 : (0 : ℚ) ≤ min (e / 250) 1 := le_min (by positivity) zero_le_one
  have ht1 : min (e / 250) 1 ≤ 1 := min_le_right _ _
  have hp0 : (0 : ℚ) ≤ (1 - min (e / 250) 1) ^ 3 :=
    pow_nonneg (by linarith) 3
  have hp1 : (1 - min (e / 250) 1) ^ 3 ≤ 1 :=
    pow_le_one₀ (by linarith) (by linarith)
  have hdiv : (0 + (300 - 0) * (1 - (1 - min (e / 250) 1) ^ 3)) / 300
      = 1 - (1 - min (e / 250) 1) ^ 3 := by
    field_simp
  simp only [animTickProgress, animTickHeight,
    if_pos (by norm_num : (0 : ℚ) < 300), hdiv]
  rw [min_eq_right (by linarith), max_eq_right (by linarith)]

/-- The eased progress is monotone in the elapsed time. -/
lemma animTickProgress_mono (a b : ℚ) (ha : 0 ≤ a) (hab : a ≤ b) :
    animTickProgress 0 300 250 a ≤ animTickProgress 0 300 250 b := by
  have hb : (0 : ℚ) ≤ b := le_trans ha hab
  rw [animTickProgress_from_zero a ha, animTickProgress_from_zero b hb]
  have hm : min (a / 250) 1 ≤ min (b / 250) 1 :=
    min_le_min (by gcongr) le_rfl
  have htb : min (b / 250) 1 ≤ 1 := min_le_right _ _
  have hcube : (1 - min (b / 250) 1) ^ 3 ≤ (1 - min (a / 250) 1) ^ 3 :=
    pow_le_pow_left₀ (by linarith) (by linarith) 3
  linarith

/-- **C10** (confirmed). For the animation from start height 0 to target 300
over 250 ms, a tick at elapsed time `e ≥ 0` reports progress exactly
`1 − (1 − t)³` with `t = min (e / 250) 1` (the ease-out curve, exact in ℚ);
the progress is monotone in the elapsed time, starts at 0, equals `7/8` at
125 ms, and equals 1 at 250 ms. -/
theorem C10_ease_out_progress (e a b : ℚ) (he : 0 ≤ e) (ha : 0 ≤ a)
    (hab : a ≤ b) :
    animTickProgress 0 300 250 e = 1 - (1 - min (e / 250) 1) ^ 3 ∧
    animTickProgress 0 300 250 a ≤ animTickProgress 0 300 250 b ∧
    animTickProgress 0 300 250 0 = 0 ∧
    animTickProgress 0 300 250 125 = 7 / 8 ∧
    animTickProgress 0 300 250 250 = 1 :=
  ⟨animTickProgress_from_zero e he, animTickProgress_mono a b ha hab,
   by norm_num [animTickProgress, animTickHeight],
   by norm_num [animTickProgress, animTickHeight],
   by norm_num [animTickProgress, animTickHeight]⟩

/-- C10 witness: the theorem instantiated at elapsed times 125 (for the
formula) and 100 ≤ 200 (for monotonicity). -/
theorem C10_ease_out_progress_witness :
    (0 : ℚ) ≤ 125 ∧ (0 : ℚ) ≤ 100 ∧ (100 : ℚ) ≤ 200 ∧
    (animTickProgress 0 300 250 125 = 1 - (1 - min (125 / 250) 1) ^ 3 ∧
      animTickProgress 0 300 250 100 ≤ animTickProgress 0 300 250 200 ∧
      animTickProgress 0 300 250 0 = 0 ∧
      animTickProgress 0 300 250 125 = 7 / 8 ∧
      animTickProgress 0 300 250 250 = 1) :=
  ⟨by decide, by decide, by decide,
   C10_ease_out_progress 125 100 200 (by decide) (by decide) (by decide)⟩
